import Mathlib

/-!
Verification of the VAPI-to-Sheets webhook pipeline, a shallow embedding of
`tools/vapi_webhook.py` and `tools/sheets_appender.py`.

Modelling conventions:
* JSON values produced by `json.loads` (plus Python `None`) are modelled by
  `JVal`; Python dicts are insertion-ordered association lists, as in CPython.
* A Python expression that can raise is modelled in `Except String`, the
  error string standing for the exception; a `try/except` boundary is a
  `match` on that `Except`.
* Network and filesystem effects are injected as explicit parameters:
  the origin-platform fetch is a function from the fetch index to the
  parsed response (or an exception), the spreadsheet append is an
  `Except String Unit` outcome, and the failure-journal file is a
  `JournalPrior` (missing, undecodable, or parsed JSON).
-/

namespace VapiSheets

/-- JSON-like values flowing through the pipeline: strings, integers,
booleans, `None`, arrays and objects. Object fields keep insertion order,
as Python dicts do. -/
inductive JVal where
  | jStr (s : String)
  | jInt (n : Int)
  | jBool (b : Bool)
  | jNull
  | jArr (elems : List JVal)
  | jObj (fields : List (String × JVal))

/-- First-match lookup in an association list (Python dict indexing). -/
def lookupJ : List (String × JVal) → String → Option JVal
  | [], _ => none
  | (k, v) :: rest, key => if k = key then some v else lookupJ rest key

/-- `d.get(key, default)` on a dict `d` modelled as a field list. -/
def lookupJD (fs : List (String × JVal)) (k : String) (d : JVal) : JVal :=
  (lookupJ fs k).getD d

/-- `o.get(key, default)`: succeeds on a dict, raises `AttributeError`
on any other Python value (no other `JVal` has a `.get` method). -/
def pyGet (o : JVal) (k : String) (d : JVal) : Except String JVal :=
  match o with
  | .jObj fs => .ok (lookupJD fs k d)
  | _ => .error "AttributeError: object has no attribute get"

/-- `d[key] = v` on a dict: replace the first binding in place, else append,
as CPython dict assignment preserves insertion order. -/
def setAssoc : List (String × JVal) → String → JVal → List (String × JVal)
  | [], key, v => [(key, v)]
  | (k, w) :: rest, key, v =>
      if k = key then (key, v) :: rest else (k, w) :: setAssoc rest key v

/-- `o[key] = v` as a Python statement: raises `TypeError` on a non-dict. -/
def pySet (o : JVal) (k : String) (v : JVal) : Except String JVal :=
  match o with
  | .jObj fs => .ok (.jObj (setAssoc fs k v))
  | _ => .error "TypeError: object does not support item assignment"

/-- Python truthiness of a value (`if x:`): `None`, `False`, `0`, `""`,
`[]` and `\x7b\x7d` are falsy, everything else truthy. -/
def pyTruthy : JVal → Bool
  | .jNull => false
  | .jBool b => b
  | .jInt n => n ≠ 0
  | .jStr s => s ≠ ""
  | .jArr l => !l.isEmpty
  | .jObj l => !l.isEmpty

mutual

/-- Python `repr` of a JSON-like value (used by `str` inside containers). -/
def pyRepr : JVal → String
  | .jStr s => "\x27" ++ s ++ "\x27"
  | .jInt n => toString n
  | .jBool true => "True"
  | .jBool false => "False"
  | .jNull => "None"
  | .jArr l => "[" ++ pyReprList l ++ "]"
  | .jObj l => "\x7b" ++ pyReprFields l ++ "\x7d"

/-- Comma-separated `repr`s of list elements. -/
def pyReprList : List JVal → String
  | [] => ""
  | [v] => pyRepr v
  | v :: rest => pyRepr v ++ ", " ++ pyReprList rest

/-- Comma-separated `repr`s of dict items. -/
def pyReprFields : List (String × JVal) → String
  | [] => ""
  | [(k, v)] => "\x27" ++ k ++ "\x27: " ++ pyRepr v
  | (k, v) :: rest => "\x27" ++ k ++ "\x27: " ++ pyRepr v ++ ", " ++ pyReprFields rest

end

/-- Python `str()` of a value: identity on strings, `repr`-like otherwise. -/
def pyStr : JVal → String
  | .jStr s => s
  | v => pyRepr v

/-- `s.lower()` (ASCII range, the only one the pipeline's literals need). -/
def pyLower (s : String) : String := String.mk (s.data.map Char.toLower)

/-- Does character list `h` start with `n`? -/
def chStarts : List Char → List Char → Bool
  | [], _ => true
  | _ :: _, [] => false
  | a :: as, b :: bs => a = b && chStarts as bs

/-- Does character list `h` contain `n` as a contiguous run? -/
def chHas (n : List Char) : List Char → Bool
  | [] => chStarts n []
  | c :: t => chStarts n (c :: t) || chHas n t

/-- Python `needle in hay` on strings: substring containment. -/
def strContains (hay needle : String) : Bool := chHas needle.data hay.data

/-! ## Phone Normalizer (`format_us_phone`, tools/vapi_webhook.py lines 44-53) -/

/-- Renders exactly ten digit characters as `(AAA) BBB-CCCC`, the f-string
of the source. -/
def fmt10 (digits : List Char) : String :=
  "(" ++ String.mk (digits.take 3) ++ ") " ++ String.mk ((digits.drop 3).take 3)
    ++ "-" ++ String.mk (digits.drop 6)

/-- The digit characters of `raw`, i.e. `re.sub(r'\D', '', raw)`. -/
def phoneDigits (raw : String) : List Char := raw.data.filter Char.isDigit

/-- The country-code step: an 11-digit string starting with `1` loses its
leading digit (`digits = digits[1:]`); anything else passes through. -/
def normDigits (d : List Char) : List Char :=
  if d.length = 11 ∧ d.head? = some '1' then d.drop 1 else d

/-- `format_us_phone(raw)`: strips non-digits (`re.sub(r'\D', '', raw)`),
drops a leading country-code `1` from an 11-digit string, formats a
10-digit string, and otherwise returns the raw input unchanged. -/
def format_us_phone (raw : String) : String :=
  if (normDigits (phoneDigits raw)).length = 10 then fmt10 (normDigits (phoneDigits raw))
  else raw

/-- C4: for every input string, exactly-10-digit inputs (after stripping
non-digits) are formatted as `(AAA) BBB-CCCC`; 11-digit inputs with a
leading `1` are formatted from the remaining ten digits; every other
input is returned unchanged (the function is total, so no error). -/
theorem C4_phone_normalizer (raw : String) :
    ((phoneDigits raw).length = 10 → format_us_phone raw = fmt10 (phoneDigits raw)) ∧
    ((phoneDigits raw).length = 11 → (phoneDigits raw).head? = some '1' →
      format_us_phone raw = fmt10 ((phoneDigits raw).drop 1)) ∧
    (¬ ((phoneDigits raw).length = 10 ∨
        ((phoneDigits raw).length = 11 ∧ (phoneDigits raw).head? = some '1')) →
      format_us_phone raw = raw) := by
  set d := phoneDigits raw with hd
  refine ⟨?_, ?_, ?_⟩
  · intro h10
    have h1 : normDigits d = d := by
      unfold normDigits
      rw [if_neg]
      rintro ⟨h, _⟩
      omega
    unfold format_us_phone
    rw [← hd, h1, if_pos h10]
  · intro h11 hhd
    have h1 : normDigits d = d.drop 1 := by
      unfold normDigits
      rw [if_pos ⟨h11, hhd⟩]
    have h2 : (d.drop 1).length = 10 := by
      rw [List.length_drop]
      omega
    unfold format_us_phone
    rw [← hd, h1, if_pos h2]
  · intro hno
    unfold format_us_phone
    rw [← hd]
    by_cases hc : d.length = 11 ∧ d.head? = some '1'
    · exact absurd (Or.inr hc) hno
    · have h1 : normDigits d = d := by
        unfold normDigits
        rw [if_neg hc]
      rw [h1, if_neg (fun h10 => hno (Or.inl h10))]

/-- Witness for C4 at a concrete input: a `+1`-code number with separators
formats to the canonical display form. -/
theorem C4_phone_normalizer_witness :
    format_us_phone "+1 (555) 123-4567" = "(555) 123-4567" := by
  have h := (C4_phone_normalizer "+1 (555) 123-4567").2.1 (by decide) (by decide)
  rw [h]
  decide

/-! ## Record Validator (`VAPICallData`, tools/vapi_webhook.py lines 28-41)

`VAPICallData` is a pydantic v2 `BaseModel` whose 11 fields are typed
`str | None`, `int | None` or `bool | None`, all defaulting to `None`,
with `model_config = ConfigDict(extra='ignore')`. Construction validates
each supplied field in pydantic's default (lax) mode and raises
`ValidationError` on a value the field type cannot accept;
`model_dump()` then yields exactly the declared fields. -/

/-- The three field kinds occurring in `VAPICallData`. -/
inductive FKind where
  | fStr
  | fInt
  | fBool
deriving DecidableEq

/-- The 11 destination-schema fields of `VAPICallData`, in declaration
order. -/
def schemaFields : List (String × FKind) :=
  [("caller_first_name", .fStr),
   ("caller_last_name", .fStr),
   ("phone_number", .fStr),
   ("zip_code", .fStr),
   ("standing_or_leaking_water", .fBool),
   ("affected_areas_scope", .fStr),
   ("affected_rooms_count", .fInt),
   ("leak_stopped", .fBool),
   ("leak_timeline", .fStr),
   ("has_insurance", .fBool),
   ("call_summary", .fStr)]

/-- Pydantic v2 lax coercion of a string to an integer: surrounding
whitespace is trimmed, the rest must be a signed decimal integer. -/
def strToIntLax (s : String) : Option Int := s.trim.toInt?

/-- Pydantic v2 lax coercion of a string to a boolean: the fixed
case-insensitive token table. -/
def strToBoolLax (s : String) : Option Bool :=
  let t := pyLower s
  if t = "true" ∨ t = "t" ∨ t = "yes" ∨ t = "y" ∨ t = "on" ∨ t = "1" then some true
  else if t = "false" ∨ t = "f" ∨ t = "no" ∨ t = "n" ∨ t = "off" ∨ t = "0" then some false
  else none

/-- Pydantic v2 validation of one field value in default (lax) mode:
`None` always passes (every field is `T | None`); `str | None` accepts
only strings; `int | None` accepts integers and integer-looking strings
but not booleans; `bool | None` accepts booleans, `0`/`1`, and the usual
boolean token strings. Anything else raises `ValidationError`. -/
def validateValue : FKind → JVal → Except String JVal
  | _, .jNull => .ok .jNull
  | .fStr, .jStr s => .ok (.jStr s)
  | .fStr, _ => .error "ValidationError: Input should be a valid string"
  | .fInt, .jInt n => .ok (.jInt n)
  | .fInt, .jStr s =>
      match strToIntLax s with
      | some n => .ok (.jInt n)
      | none => .error "ValidationError: Input should be a valid integer"
  | .fInt, _ => .error "ValidationError: Input should be a valid integer"
  | .fBool, .jBool b => .ok (.jBool b)
  | .fBool, .jInt n =>
      if n = 0 then .ok (.jBool false)
      else if n = 1 then .ok (.jBool true)
      else .error "ValidationError: Input should be a valid boolean"
  | .fBool, .jStr s =>
      match strToBoolLax s with
      | some b => .ok (.jBool b)
      | none => .error "ValidationError: Input should be a valid boolean"
  | .fBool, _ => .error "ValidationError: Input should be a valid boolean"

/-- Validation of the declared fields against the input mapping: a missing
field takes its default `None`, a present field is validated by its type,
and the output binds the declared fields in declaration order. Keys of the
input outside `fields` are never consulted (`extra='ignore'`). -/
def validateFields :
    List (String × FKind) → List (String × JVal) → Except String (List (String × JVal))
  | [], _ => .ok []
  | (k, kind) :: rest, sd =>
      match (match lookupJ sd k with
             | none => Except.ok JVal.jNull
             | some v => validateValue kind v) with
      | .error e => .error e
      | .ok v =>
          match validateFields rest sd with
          | .error e => .error e
          | .ok r => .ok ((k, v) :: r)

/-- `VAPICallData(**sd).model_dump()`: validate and dump the 11 schema
fields. -/
def vapiModelDump (sd : List (String × JVal)) : Except String (List (String × JVal)) :=
  validateFields schemaFields sd

/-! ## Sheet Appender (tools/sheets_appender.py) -/

/-- The default a schema field falls back to in the row construction of
`append_to_sheet` (`data.get(key, default)`): empty string, zero, false. -/
def defaultJ : FKind → JVal
  | .fStr => .jStr ""
  | .fInt => .jInt 0
  | .fBool => .jBool false

/-- The `values` row of `append_to_sheet` (tools/sheets_appender.py lines
40-54): one `data.get(key, default)` per schema column, in column order. -/
def buildRow (data : List (String × JVal)) : List JVal :=
  [lookupJD data "caller_first_name" (.jStr ""),
   lookupJD data "caller_last_name" (.jStr ""),
   lookupJD data "phone_number" (.jStr ""),
   lookupJD data "zip_code" (.jStr ""),
   lookupJD data "standing_or_leaking_water" (.jBool false),
   lookupJD data "affected_areas_scope" (.jStr ""),
   lookupJD data "affected_rooms_count" (.jInt 0),
   lookupJD data "leak_stopped" (.jBool false),
   lookupJD data "leak_timeline" (.jStr ""),
   lookupJD data "has_insurance" (.jBool false),
   lookupJD data "call_summary" (.jStr "")]

/-- State of the journal file `.tmp/sheets_failures.json` before a failure
is logged: the file is absent, present but not decodable as JSON
(`json.JSONDecodeError`), or present and decoded to a JSON value. -/
inductive JournalPrior where
  | missing
  | undecodable
  | parsed (v : JVal)

/-- The `failures` list `log_failure` starts from: a missing or
undecodable file gives `[]`; a file decoding to a JSON array gives its
elements; a file decoding to anything else gives no list at all — the
subsequent `failures.append` raises `AttributeError`. -/
def journalDecodes : JournalPrior → Option (List JVal)
  | .missing => some []
  | .undecodable => some []
  | .parsed (.jArr l) => some l
  | .parsed _ => none

/-- The journal entry `log_failure` builds: timestamp, error message, and
the full record. -/
def mkJournalEntry (data : List (String × JVal)) (error_message ts : String) : JVal :=
  .jObj [("timestamp", .jStr ts), ("error", .jStr error_message), ("data", .jObj data)]

/-- `log_failure(data, error_message)` at injected timestamp `ts`
(tools/sheets_appender.py lines 77-105): read the journal (missing file or
decode error yields `[]`), append the new entry, and persist. The result
is the new journal file content; the error case is the `AttributeError`
raised by `failures.append` when the file decoded to a non-list. -/
def log_failure (prior : JournalPrior) (data : List (String × JVal))
    (error_message ts : String) : Except String (List JVal) :=
  match journalDecodes prior with
  | some failures => .ok (failures ++ [mkJournalEntry data error_message ts])
  | none => .error "AttributeError: object has no attribute append"

/-- Outcome of a completed `append_to_sheet` call: the row reached the
spreadsheet (function returns `True`), or the record was journaled
(function returns `False`). -/
inductive AppendResult where
  | appendedRow (row : List JVal)
  | journaled (newJournal : List JVal)

/-- `append_to_sheet(data)` (tools/sheets_appender.py lines 30-75) with
environment and effects injected. `spreadsheet_id` is
`os.getenv("SPREADSHEET_ID")` (`none` when unset); a falsy value raises
`ValueError` *before* the `try` block, so before any write is attempted.
`ext` is the combined outcome of `get_sheets_service()` and the append
`execute()` call, both of which sit inside the `try`; on its failure
`log_failure` runs, and an exception from `log_failure` itself (possible
only when the journal decoded to a non-list) escapes `append_to_sheet`. -/
def append_to_sheet (spreadsheet_id : Option String) (ext : Except String Unit)
    (prior : JournalPrior) (data : List (String × JVal)) (ts : String) :
    Except String AppendResult :=
  match spreadsheet_id with
  | none => .error "ValueError: SPREADSHEET_ID is missing from the environment variables."
  | some sid =>
      if sid = "" then
        .error "ValueError: SPREADSHEET_ID is missing from the environment variables."
      else
        match ext with
        | .ok _ => .ok (.appendedRow (buildRow data))
        | .error e =>
            match log_failure prior data e ts with
            | .ok j => .ok (.journaled j)
            | .error e2 => .error e2

/-! ## Structured-Data Extractor (tools/vapi_webhook.py lines 130-144) -/

/-- The `for key in structured_outputs` loop: for each entry, read its
`result` sub-mapping (`structured_outputs[key].get("result", \x7b\x7d)`,
an `AttributeError` when the entry is not a dict) and stop at the first
truthy one. -/
def firstNonEmptyResult : List (String × JVal) → Except String (Option JVal)
  | [] => .ok none
  | (_, v) :: rest =>
      match pyGet v "result" (.jObj []) with
      | .error e => .error e
      | .ok r => if pyTruthy r then .ok (some r) else firstNonEmptyResult rest

/-- The extraction block of the webhook handler: start from
`structured_data = \x7b\x7d`; read `analysis = call_obj.get("analysis", \x7b\x7d)`
and `analysis.get("structuredOutputs", \x7b\x7d)`; when the latter is a
truthy dict, scan it for the first truthy `result`; when the scan leaves
`structured_data` falsy, fall back to `analysis.get("structuredData", \x7b\x7d)`.
(A falsy or non-dict `structuredOutputs` skips the scan, which is the same
as a scan that finds nothing.) -/
def extract_structured_data (call_obj : JVal) : Except String JVal :=
  match pyGet call_obj "analysis" (.jObj []) with
  | .error e => .error e
  | .ok analysis =>
      match pyGet analysis "structuredOutputs" (.jObj []) with
      | .error e => .error e
      | .ok so =>
          let step1 : Except String JVal :=
            match so with
            | .jObj fs =>
                match firstNonEmptyResult fs with
                | .error e => .error e
                | .ok (some r) => .ok r
                | .ok none => .ok (.jObj [])
            | _ => .ok (.jObj [])
          match step1 with
          | .error e => .error e
          | .ok sd0 =>
              if pyTruthy sd0 then .ok sd0
              else pyGet analysis "structuredData" (.jObj [])

/-! ## Call Resource Fetcher (`fetch_call_from_vapi`, tools/vapi_webhook.py
lines 56-96)

The origin platform is injected as `resp : Nat → Except String JVal`,
mapping the index of a fetch (request + JSON parse) to its outcome; the
loop issues fetches 0, 1, 2 and the final unconditional fetch is index 3.
`time.sleep` is recorded as a trace event rather than performed. -/

/-- The readiness check of one loop iteration: read
`analysis.structuredOutputs`; when it is a truthy dict, read the first
entry's `result` (`structured_outputs[first_key].get("result", \x7b\x7d)`)
and report its truthiness; otherwise report not-ready. Any `AttributeError`
from the chained `get`s propagates to the attempt's `except`. -/
def firstOutputReady (call_obj : JVal) : Except String Bool :=
  match pyGet call_obj "analysis" (.jObj []) with
  | .error e => .error e
  | .ok analysis =>
      match pyGet analysis "structuredOutputs" (.jObj []) with
      | .error e => .error e
      | .ok so =>
          match so with
          | .jObj [] => .ok false
          | .jObj ((_, v) :: _) =>
              match pyGet v "result" (.jObj []) with
              | .error e => .error e
              | .ok r => .ok (pyTruthy r)
          | _ => .ok false

/-- How one attempt of the retry loop ends: the call object is returned
(`return call_obj`), the outputs are not ready (`time.sleep(5)` follows),
or the attempt's `except Exception` caught a failure (`time.sleep(3)`
follows). -/
inductive AttemptRes where
  | gotIt (obj : JVal)
  | notReady
  | failed (e : String)

/-- Classify one attempt from its fetch outcome: a fetch/parse exception
or an exception inside the readiness check is caught by the attempt's
`except`; otherwise the attempt returns the object or reports not-ready. -/
def classifyAttempt (r : Except String JVal) : AttemptRes :=
  match r with
  | .error e => .failed e
  | .ok obj =>
      match firstOutputReady obj with
      | .error e => .failed e
      | .ok true => .gotIt obj
      | .ok false => .notReady

/-- The backoff the loop performs after an attempt that did not return:
5 seconds after a not-ready attempt, 3 seconds after a caught failure. -/
def sleepAfter : AttemptRes → Nat
  | .gotIt _ => 0
  | .notReady => 5
  | .failed _ => 3

/-- Events of a fetcher run: the `i`-th HTTP fetch, or a `time.sleep`. -/
inductive FEv where
  | fetched (i : Nat)
  | slept (secs : Nat)

/-- The final unconditional fetch after the loop: return the parsed
response, or `\x7b\x7d` when it raises (the bare `except`). -/
def finalFetch (resp : Nat → Except String JVal) : JVal :=
  match resp 3 with
  | .ok v => v
  | .error _ => .jObj []

/-- The `for attempt in range(3)` loop, from fetch index `i` with `fuel`
attempts left: each attempt fetches, then returns the object or sleeps
(5 s if not ready, 3 s if the attempt failed) and retries. -/
def fetchAttempts (resp : Nat → Except String JVal) : Nat → Nat → Option JVal × List FEv
  | _, 0 => (none, [])
  | i, fuel + 1 =>
      match classifyAttempt (resp i) with
      | .gotIt o => (some o, [.fetched i])
      | .notReady =>
          let rest := fetchAttempts resp (i + 1) fuel
          (rest.1, .fetched i :: .slept 5 :: rest.2)
      | .failed _ =>
          let rest := fetchAttempts resp (i + 1) fuel
          (rest.1, .fetched i :: .slept 3 :: rest.2)

/-- `fetch_call_from_vapi(call_id)`: run the 3-attempt loop; if no attempt
returned, perform the final unconditional fetch (index 3) and return its
value, or `\x7b\x7d` when it raises. Yields the returned call object and
the trace of fetches and sleeps. -/
def fetch_call_from_vapi (resp : Nat → Except String JVal) : JVal × List FEv :=
  match fetchAttempts resp 0 3 with
  | (some o, tr) => (o, tr)
  | (none, tr) =>
      match resp 3 with
      | .ok v => (v, tr ++ [.fetched 3])
      | .error _ => (.jObj [], tr ++ [.fetched 3])

/-- Number of HTTP fetches in a trace. -/
def countFetches (tr : List FEv) : Nat :=
  (tr.filter fun e => match e with | .fetched _ => true | _ => false).length

/-- Is a value a Python dict (a JSON object)? -/
def isJObjB : JVal → Bool
  | .jObj _ => true
  | _ => false

/-! ## Caller-ID Resolver (tools/vapi_webhook.py lines 146-160) -/

/-- The replacement test on `phone_val = str(structured_data.get(
"phone_number", ""))`: empty, or lowercase contains "unknown" or
"caller", or fewer than 7 characters. -/
def untrustworthy (phone_val : String) : Bool :=
  phone_val = "" || strContains (pyLower phone_val) "unknown"
    || strContains (pyLower phone_val) "caller" || phone_val.length < 7

/-- The phone-override block: when the AI-extracted candidate is
untrustworthy, fall back to `customer_number` (from the webhook payload)
or, when that is falsy, to `call_obj.get("customer", \x7b\x7d).get("number")`;
a truthy fallback is written into `structured_data["phone_number"]`,
otherwise the mapping is left as it is. The first `.get` raises when
`structured_data` is not a dict, and the fallback chain raises when
`call_obj` or its `customer` value is not a dict. -/
def resolve_phone (structured_data customer_number call_obj : JVal) :
    Except String JVal :=
  match pyGet structured_data "phone_number" (.jStr "") with
  | .error e => .error e
  | .ok pv =>
      if untrustworthy (pyStr pv) then
        let cn : Except String JVal :=
          if pyTruthy customer_number then .ok customer_number
          else
            match pyGet call_obj "customer" (.jObj []) with
            | .error e => .error e
            | .ok c => pyGet c "number" .jNull
        match cn with
        | .error e => .error e
        | .ok cnv =>
            if pyTruthy cnv then pySet structured_data "phone_number" cnv
            else .ok structured_data
      else .ok structured_data

/-! ## Webhook Endpoint (`vapi_webhook`, tools/vapi_webhook.py lines
105-175) -/

/-- The injected environment of one request: the origin-platform fetch
oracle, `SPREADSHEET_ID`, the spreadsheet append outcome, the journal
file state, and the timestamp `log_failure` would record. -/
structure WebhookEnv where
  resp : Nat → Except String JVal
  spreadsheet_id : Option String
  ext : Except String Unit
  journal : JournalPrior
  ts : String

/-- The response bodies the handler can produce, by their `status` field
and provenance: `\x7b"status": "ignored"\x7d` for a non-end-of-call event,
`\x7b"status": "error"\x7d` for a missing call id, `success` /
`partial_failure` from the append outcome, and the blanket-catch
`\x7b"status": "error"\x7d` body carrying the exception text. -/
inductive WResp where
  | ignored
  | errorNoCallId
  | success
  | partFailure
  | crashed (e : String)

/-- The `status` field of each response body. -/
def respStatus : WResp → String
  | .ignored => "ignored"
  | .errorNoCallId => "error"
  | .success => "success"
  | .partFailure => "partial_failure"
  | .crashed _ => "error"

/-- Python `==` between a value and a string literal: true only for the
equal string. -/
def jvalEqStr (v : JVal) (s : String) : Bool :=
  match v with
  | .jStr t => t = s
  | _ => false

/-- The body of the `try` block of the handler, steps in source order:
parse the payload (`await request.json()`), read the message type and
filter, read the call id and reject a falsy one, read the payload's
customer number, fetch the call object, extract structured data, resolve
and format the phone number (`format_us_phone` demands a string —
anything else raises `TypeError` in `re.sub`), validate, and append.
Pure sub-chains that the source re-evaluates (`payload.get("message",
\x7b\x7d)` etc.) are evaluated once, which yields the same values. -/
def vapi_webhook_inner (payload : Except String JVal) (env : WebhookEnv) :
    Except String WResp :=
  match payload with
  | .error e => .error e
  | .ok p =>
      match pyGet p "message" (.jObj []) with
      | .error e => .error e
      | .ok message =>
          match pyGet message "type" .jNull with
          | .error e => .error e
          | .ok message_type =>
              if jvalEqStr message_type "end-of-call-report" then
                match pyGet message "call" (.jObj []) with
                | .error e => .error e
                | .ok callv =>
                    match pyGet callv "id" .jNull with
                    | .error e => .error e
                    | .ok call_id =>
                        if pyTruthy call_id then
                          match pyGet callv "customer" (.jObj []) with
                          | .error e => .error e
                          | .ok customer =>
                              match pyGet customer "number" .jNull with
                              | .error e => .error e
                              | .ok customer_number =>
                                  let call_obj := (fetch_call_from_vapi env.resp).1
                                  match extract_structured_data call_obj with
                                  | .error e => .error e
                                  | .ok structured_data =>
                                      match resolve_phone structured_data customer_number call_obj with
                                      | .error e => .error e
                                      | .ok sd2 =>
                                          match pyGet sd2 "phone_number" .jNull with
                                          | .error e => .error e
                                          | .ok pn =>
                                              let fmtStep : Except String JVal :=
                                                if pyTruthy pn then
                                                  match pn with
                                                  | .jStr s => pySet sd2 "phone_number" (.jStr (format_us_phone s))
                                                  | _ => .error "TypeError: expected string or bytes-like object"
                                                else .ok sd2
                                              match fmtStep with
                                              | .error e => .error e
                                              | .ok sd3 =>
                                                  match sd3 with
                                                  | .jObj fs =>
                                                      match vapiModelDump fs with
                                                      | .error e => .error e
                                                      | .ok validated =>
                                                          match append_to_sheet env.spreadsheet_id env.ext env.journal validated env.ts with
                                                          | .error e => .error e
                                                          | .ok (.appendedRow _) => .ok .success
                                                          | .ok (.journaled _) => .ok .partFailure
                                                  | _ => .error "TypeError: argument after ** must be a mapping"
                        else .ok .errorNoCallId
              else .ok .ignored

/-- The handler: its whole body sits in `try/except Exception`, so an
inner exception becomes the blanket-catch error body and nothing
propagates to the transport layer. -/
def vapi_webhook (payload : Except String JVal) (env : WebhookEnv) : WResp :=
  match vapi_webhook_inner payload env with
  | .ok r => r
  | .error e => .crashed e

/-! ## Claims about the Sheet Appender and the failure journal -/

/-- C1 counterexample: with `SPREADSHEET_ID` unset, `append_to_sheet`
raises `ValueError` *before* its `try` block, so for this misconfiguration
— which the claim explicitly includes — the record reaches neither the
spreadsheet nor the failure journal. -/
theorem C1_missing_id_counterexample :
    append_to_sheet none (.ok ()) .missing
      [("call_summary", .jStr "flooded basement")] "2026-10-12T00:00:00" =
      .error "ValueError: SPREADSHEET_ID is missing from the environment variables." := rfl

/-- C1 (amended): provided the spreadsheet identifier is configured
(non-empty) and the prior journal decodes to a list, exactly one durable
destination receives the record: on external success the row built from
the record is appended and no journal entry is written; on external
failure no row is appended and the journal gains exactly one entry
carrying the record. (When the identifier is missing, `append_to_sheet`
raises before attempting either write.) -/
theorem C1_exactly_one_destination (sid : String) (ext : Except String Unit)
    (prior : JournalPrior) (l : List JVal) (data : List (String × JVal)) (ts : String)
    (hsid : sid ≠ "") (hj : journalDecodes prior = some l) :
    (ext = .ok () →
      append_to_sheet (some sid) ext prior data ts = .ok (.appendedRow (buildRow data))) ∧
    (∀ e, ext = .error e →
      append_to_sheet (some sid) ext prior data ts =
        .ok (.journaled (l ++ [mkJournalEntry data e ts]))) := by
  constructor
  · intro h
    subst h
    simp [append_to_sheet, hsid]
  · intro e h
    subst h
    simp [append_to_sheet, hsid, log_failure, hj]

/-- Witness for C1 at a concrete input: a quota failure with a configured
spreadsheet routes the record into the journal. -/
theorem C1_exactly_one_destination_witness :
    append_to_sheet (some "sheet-1") (.error "quota exceeded") .missing
      [("zip_code", .jStr "90210")] "t0" =
      .ok (.journaled [mkJournalEntry [("zip_code", .jStr "90210")] "quota exceeded" "t0"]) :=
  (C1_exactly_one_destination "sheet-1" (.error "quota exceeded") .missing []
      [("zip_code", .jStr "90210")] "t0" (by decide) rfl).2 "quota exceeded" rfl

/-- C8: on an append failure, the new journal is precisely the prior
contents (a missing or undecodable file read as the empty list, a JSON
array read as its elements) extended by one entry holding the timestamp,
the error and the attempted record; the new entry is last and every
existing entry survives. -/
theorem C8_journal_append_only (prior : JournalPrior) (l : List JVal)
    (data : List (String × JVal)) (err ts : String)
    (hj : journalDecodes prior = some l) :
    log_failure prior data err ts =
      .ok (l ++ [.jObj [("timestamp", .jStr ts), ("error", .jStr err),
                        ("data", .jObj data)]]) ∧
    (l ++ [mkJournalEntry data err ts]).getLast? = some (mkJournalEntry data err ts) ∧
    ∀ x ∈ l, x ∈ l ++ [mkJournalEntry data err ts] := by
  refine ⟨?_, ?_, ?_⟩
  · unfold log_failure
    rw [hj]
    exact rfl
  · simp
  · intro x hx
    simp [hx]

/-- Witness for C8 at a concrete input: an existing one-element journal
grows by the entry for the failed record. -/
theorem C8_journal_append_only_witness :
    log_failure (.parsed (.jArr [.jStr "old-entry"])) [("zip_code", .jStr "12345")]
      "HttpError 403" "t1" =
      .ok [.jStr "old-entry",
           .jObj [("timestamp", .jStr "t1"), ("error", .jStr "HttpError 403"),
                  ("data", .jObj [("zip_code", .jStr "12345")])]] :=
  (C8_journal_append_only (.parsed (.jArr [.jStr "old-entry"])) [.jStr "old-entry"]
    [("zip_code", .jStr "12345")] "HttpError 403" "t1" rfl).1

/-! ## Claims about the Record Validator -/

/-- Does the value bound to schema field `p` in `sd` (if any) pass
pydantic validation? A missing field passes (its default is `None`). -/
def fieldOk (sd : List (String × JVal)) (p : String × FKind) : Bool :=
  match lookupJ sd p.1 with
  | none => true
  | some v => match validateValue p.2 v with | .ok _ => true | .error _ => false

lemma validateFields_ok (fields : List (String × FKind)) (sd : List (String × JVal))
    (h : fields.all (fieldOk sd) = true) :
    ∃ r, validateFields fields sd = .ok r ∧ r.map Prod.fst = fields.map Prod.fst := by
  induction fields with
  | nil => exact ⟨[], rfl, rfl⟩
  | cons kf rest ih =>
      obtain ⟨k, kind⟩ := kf
      rw [List.all_cons, Bool.and_eq_true] at h
      obtain ⟨h1, h2⟩ := h
      obtain ⟨r, hr, hmap⟩ := ih h2
      cases hl : lookupJ sd k with
      | none =>
          refine ⟨(k, .jNull) :: r, ?_, ?_⟩
          · simp only [validateFields, hl, hr]
          · simp [hmap]
      | some v =>
          cases hv : validateValue kind v with
          | error e => simp [fieldOk, hl, hv] at h1
          | ok w =>
              refine ⟨(k, w) :: r, ?_, ?_⟩
              · simp only [validateFields, hl, hv, hr]
              · simp [hmap]

/-- C2 counterexample: pydantic v2 rejects an integer for the
`str | None` field `caller_first_name`, so `VAPICallData(**sd)` raises
`ValidationError` — the Record Validator is not total over mappings with
wrong-typed values. -/
theorem C2_validator_not_total_counterexample :
    vapiModelDump [("caller_first_name", .jInt 123)] =
      .error "ValidationError: Input should be a valid string" := rfl

/-- C2 (amended): over every input mapping whose values for the schema
fields are acceptable to their field types (in particular any mapping
binding schema fields to correctly typed values or `None`, with arbitrary
unknown extra keys, including the empty mapping), construction and
`model_dump` succeed and yield a record with exactly the 11 destination
fields, in order, and no others. Wrong-typed values, however, raise
`ValidationError`, so the validator is not total. -/
theorem C2_validator_well_typed_total (sd : List (String × JVal))
    (h : schemaFields.all (fieldOk sd) = true) :
    ∃ r, vapiModelDump sd = .ok r ∧ r.map Prod.fst = schemaFields.map Prod.fst ∧
      r.length = 11 := by
  obtain ⟨r, hr, hmap⟩ := validateFields_ok schemaFields sd h
  refine ⟨r, hr, hmap, ?_⟩
  have := congrArg List.length hmap
  simpa using this

/-- Witness for C2 at a concrete input: a mapping with one well-typed
known field and one unknown extra key validates to the 11-field record. -/
theorem C2_validator_well_typed_total_witness :
    ∃ r, vapiModelDump [("caller_first_name", .jStr "Ann"), ("bogus_extra_key", .jArr [.jInt 1])] =
      .ok r ∧ r.map Prod.fst = schemaFields.map Prod.fst ∧ r.length = 11 :=
  C2_validator_well_typed_total
    [("caller_first_name", .jStr "Ann"), ("bogus_extra_key", .jArr [.jInt 1])] (by rfl)

/-! ## Claim about the persisted defaults (C3) -/

/-- C3 counterexample: for the empty extracted record the validator emits
every schema field bound to `None`; `data.get("caller_first_name", "")`
then finds the key present, and the first spreadsheet cell is `None`
(serialized `null`) — not the defined default `""`. -/
theorem C3_defaults_counterexample :
    vapiModelDump [] = .ok (schemaFields.map fun p => (p.1, JVal.jNull)) ∧
    (buildRow (schemaFields.map fun p => (p.1, JVal.jNull))).head? = some .jNull ∧
    some JVal.jNull ≠ some (JVal.jStr "") := by
  refine ⟨rfl, rfl, ?_⟩
  intro h
  exact JVal.noConfusion (Option.some.inj h)

lemma validateFields_absent (fields : List (String × FKind)) :
    ∀ (sd : List (String × JVal)) r, validateFields fields sd = .ok r →
      ∀ k kind, (k, kind) ∈ fields → lookupJ sd k = none → lookupJ r k = some .jNull := by
  induction fields with
  | nil =>
      intro sd r h k kind hk
      exact absurd hk (List.not_mem_nil _)
  | cons kf rest ih =>
      intro sd r h k kind hk habs
      obtain ⟨k0, kind0⟩ := kf
      cases hl : lookupJ sd k0 with
      | none =>
          cases hrest : validateFields rest sd with
          | error e => simp [validateFields, hl, hrest] at h
          | ok r' =>
              simp only [validateFields, hl, hrest] at h
              injection h with h'
              subst h'
              show lookupJ ((k0, JVal.jNull) :: r') k = some .jNull
              unfold lookupJ
              by_cases hkk : k0 = k
              · rw [if_pos hkk]
              · rw [if_neg hkk]
                rcases List.mem_cons.mp hk with heq | hmem
                · exact absurd (congrArg Prod.fst heq).symm hkk
                · exact ih sd r' hrest k kind hmem habs
      | some v =>
          cases hv : validateValue kind0 v with
          | error e => simp [validateFields, hl, hv] at h
          | ok w =>
              cases hrest : validateFields rest sd with
              | error e => simp [validateFields, hl, hv, hrest] at h
              | ok r' =>
                  simp only [validateFields, hl, hv, hrest] at h
                  injection h with h'
                  subst h'
                  show lookupJ ((k0, w) :: r') k = some .jNull
                  unfold lookupJ
                  by_cases hkk : k0 = k
                  · subst hkk
                    rw [habs] at hl
                    exact absurd hl (by simp)
                  · rw [if_neg hkk]
                    rcases List.mem_cons.mp hk with heq | hmem
                    · exact absurd (congrArg Prod.fst heq).symm hkk
                    · exact ih sd r' hrest k kind hmem habs

/-- C3 (amended): `append_to_sheet`'s per-column defaults fire only for
keys missing from its input mapping (the row is exactly
`data.get(key, default)` per schema column), but the validator never
omits a schema key — a field absent from the extracted record is bound to
`None` — so the value persisted for such a field is `None` (JSON `null`),
not the defined default. -/
theorem C3_absent_fields_persist_null (sd r : List (String × JVal)) (k : String)
    (kind : FKind) (h : vapiModelDump sd = .ok r) (hk : (k, kind) ∈ schemaFields)
    (habs : lookupJ sd k = none) :
    lookupJ r k = some .jNull ∧
    lookupJD r k (defaultJ kind) = .jNull ∧
    buildRow r = schemaFields.map fun p => lookupJD r p.1 (defaultJ p.2) := by
  have h1 := validateFields_absent schemaFields sd r h k kind hk habs
  refine ⟨h1, ?_, rfl⟩
  unfold lookupJD
  rw [h1]
  rfl

/-- The record the validator produces from `\x7b"zip_code": "90210"\x7d`:
every other field is bound to `None`. -/
def c3WitnessRecord : List (String × JVal) :=
  [("caller_first_name", .jNull),
   ("caller_last_name", .jNull),
   ("phone_number", .jNull),
   ("zip_code", .jStr "90210"),
   ("standing_or_leaking_water", .jNull),
   ("affected_areas_scope", .jNull),
   ("affected_rooms_count", .jNull),
   ("leak_stopped", .jNull),
   ("leak_timeline", .jNull),
   ("has_insurance", .jNull),
   ("call_summary", .jNull)]

/-- Witness for C3 (amended) at a concrete input: the record extracted
from `\x7b"zip_code": "90210"\x7d` persists `None` for the absent
`caller_first_name` column. -/
theorem C3_absent_fields_persist_null_witness :
    lookupJ c3WitnessRecord "caller_first_name" = some .jNull ∧
    lookupJD c3WitnessRecord "caller_first_name" (defaultJ .fStr) = .jNull ∧
    buildRow c3WitnessRecord =
      schemaFields.map fun p => lookupJD c3WitnessRecord p.1 (defaultJ p.2) :=
  C3_absent_fields_persist_null [("zip_code", .jStr "90210")] c3WitnessRecord
    "caller_first_name" .fStr rfl (by decide) rfl

/-! ## Claim about the Caller-ID Resolver (C5) -/

/-- C5 counterexample: for the untrustworthy AI candidate
`"unknown caller"` with no telecom candidate anywhere, the code leaves the
mapping untouched — the resolved phone stays `"unknown caller"`, it is not
empty as the claim states. -/
theorem C5_no_candidate_counterexample :
    resolve_phone (.jObj [("phone_number", .jStr "unknown caller")]) .jNull (.jObj []) =
      .ok (.jObj [("phone_number", .jStr "unknown caller")]) ∧
    JVal.jStr "unknown caller" ≠ .jStr "" := by
  constructor
  · rfl
  · intro h
    injection h with h'
    exact absurd h' (by decide)

/-- C5 (amended): the AI candidate is replaced by the first truthy telecom
candidate (webhook payload number before the fetched call resource's
customer number) exactly when it is untrustworthy — empty, lowercase
containing "unknown" or "caller", or shorter than 7 characters; a
trustworthy candidate is kept; and when the candidate is untrustworthy but
no telecom candidate is available, the phone field is left unchanged (so
it equals the original AI value — it is empty only when that value was
empty or absent). -/
theorem C5_caller_id_resolver (sd : List (String × JVal)) (customer_number : JVal)
    (co : List (String × JVal)) :
    (untrustworthy (pyStr (lookupJD sd "phone_number" (.jStr ""))) = false →
      resolve_phone (.jObj sd) customer_number (.jObj co) = .ok (.jObj sd)) ∧
    (untrustworthy (pyStr (lookupJD sd "phone_number" (.jStr ""))) = true →
      (pyTruthy customer_number = true →
        resolve_phone (.jObj sd) customer_number (.jObj co) =
          .ok (.jObj (setAssoc sd "phone_number" customer_number))) ∧
      (∀ c, pyTruthy customer_number = false →
        lookupJD co "customer" (.jObj []) = .jObj c →
        (pyTruthy (lookupJD c "number" .jNull) = true →
          resolve_phone (.jObj sd) customer_number (.jObj co) =
            .ok (.jObj (setAssoc sd "phone_number" (lookupJD c "number" .jNull)))) ∧
        (pyTruthy (lookupJD c "number" .jNull) = false →
          resolve_phone (.jObj sd) customer_number (.jObj co) = .ok (.jObj sd)))) := by
  refine ⟨?_, fun hu => ⟨?_, fun c hcn hc => ⟨?_, ?_⟩⟩⟩
  · intro hu
    simp [resolve_phone, pyGet, hu]
  · intro hcn
    simp [resolve_phone, pyGet, pySet, hu, hcn]
  · intro ht
    simp [resolve_phone, pyGet, pySet, hu, hcn, hc, ht]
  · intro ht
    simp [resolve_phone, pyGet, pySet, hu, hcn, hc, ht]

/-- Witness for C5 at a concrete input: the AI candidate
`"unknown caller"` is replaced by the webhook payload's customer number. -/
theorem C5_caller_id_resolver_witness :
    resolve_phone (.jObj [("phone_number", .jStr "unknown caller")])
      (.jStr "+15551234567") (.jObj []) =
      .ok (.jObj [("phone_number", .jStr "+15551234567")]) :=
  ((C5_caller_id_resolver [("phone_number", .jStr "unknown caller")]
      (.jStr "+15551234567") []).2 (by rfl)).1 (by rfl)

/-! ## Claim about the Structured-Data Extractor (C6) -/

/-- C6 counterexample: on a call resource whose `analysis` is not a
mapping, `analysis.get("structuredOutputs", \x7b\x7d)` raises
`AttributeError` — the Extractor does not tolerate every input. -/
theorem C6_extractor_raises_counterexample :
    extract_structured_data (.jObj [("analysis", .jInt 5)]) =
      .error "AttributeError: object has no attribute get" := rfl

lemma firstNonEmptyResult_truthy (fs : List (String × JVal)) :
    ∀ r, firstNonEmptyResult fs = .ok (some r) → pyTruthy r = true := by
  induction fs with
  | nil =>
      intro r h
      exact absurd h (by simp [firstNonEmptyResult])
  | cons p rest ih =>
      intro r h
      obtain ⟨k, v⟩ := p
      cases hg : pyGet v "result" (.jObj []) with
      | error e => simp [firstNonEmptyResult, hg] at h
      | ok rr =>
          cases htr : pyTruthy rr with
          | false =>
              simp only [firstNonEmptyResult, hg, htr] at h
              exact ih r (by simpa using h)
          | true =>
              simp only [firstNonEmptyResult, hg, htr] at h
              simp only [if_true] at h
              injection h with h'
              injection h' with h''
              rw [← h'']
              exact htr

/-- C6 (amended): on call resources whose `analysis` (when present) is a
mapping and whose `structuredOutputs` scan raises nothing: an absent
`analysis` yields the empty mapping; an absent `structuredOutputs` yields
`analysis.structuredData` when present, else empty; and when the scan of
`structuredOutputs` finds a first non-empty `result` that result is
returned — taking precedence over any `structuredData` — while a scan
finding nothing falls back to `structuredData` (or empty). On a resource
whose `analysis` or structured-output entry is not a mapping, the
extractor instead raises `AttributeError`. -/
theorem C6_extractor (co : List (String × JVal)) :
    (lookupJ co "analysis" = none → extract_structured_data (.jObj co) = .ok (.jObj [])) ∧
    (∀ a, lookupJ co "analysis" = some (.jObj a) →
      (lookupJ a "structuredOutputs" = none →
        extract_structured_data (.jObj co) = .ok (lookupJD a "structuredData" (.jObj []))) ∧
      (∀ fs res, lookupJ a "structuredOutputs" = some (.jObj fs) →
        firstNonEmptyResult fs = .ok res →
        extract_structured_data (.jObj co) =
          .ok (match res with
               | some r => r
               | none => lookupJD a "structuredData" (.jObj [])))) := by
  constructor
  · intro h
    simp [extract_structured_data, pyGet, lookupJD, lookupJ, h, firstNonEmptyResult,
      pyTruthy, List.isEmpty]
  · intro a ha
    constructor
    · intro hso
      simp [extract_structured_data, pyGet, lookupJD, lookupJ, ha, hso,
        firstNonEmptyResult, pyTruthy, List.isEmpty]
    · intro fs res hso hscan
      cases res with
      | none =>
          simp [extract_structured_data, pyGet, lookupJD, lookupJ, ha, hso, hscan,
            pyTruthy, List.isEmpty]
      | some r =>
          have htr := firstNonEmptyResult_truthy fs r hscan
          simp [extract_structured_data, pyGet, lookupJD, lookupJ, ha, hso, hscan, htr]

/-- Witness for C6 at a concrete input: with both shapes populated, the
first non-empty `result` of `structuredOutputs` wins over
`structuredData`. -/
theorem C6_extractor_witness :
    extract_structured_data
      (.jObj [("analysis",
        .jObj [("structuredOutputs",
                 .jObj [("out1", .jObj [("result", .jObj [("zip_code", .jStr "1")])])]),
               ("structuredData", .jObj [("x", .jStr "y")])])]) =
      .ok (.jObj [("zip_code", .jStr "1")]) := by
  have h :=
    ((C6_extractor
        [("analysis",
          .jObj [("structuredOutputs",
                   .jObj [("out1", .jObj [("result", .jObj [("zip_code", .jStr "1")])])]),
                 ("structuredData", .jObj [("x", .jStr "y")])])]).2
      [("structuredOutputs",
         .jObj [("out1", .jObj [("result", .jObj [("zip_code", .jStr "1")])])]),
       ("structuredData", .jObj [("x", .jStr "y")])] rfl).2
      [("out1", .jObj [("result", .jObj [("zip_code", .jStr "1")])])]
      (some (.jObj [("zip_code", .jStr "1")])) rfl rfl
  exact h

/-! ## Claims about the Call Resource Fetcher (C9, C10)

The four mutually exclusive run shapes of the fetcher, as helper lemmas. -/

lemma fetch_got0 (resp : Nat → Except String JVal) (o : JVal)
    (h0 : classifyAttempt (resp 0) = .gotIt o) :
    fetch_call_from_vapi resp = (o, [.fetched 0]) := by
  simp [fetch_call_from_vapi, fetchAttempts, h0]

lemma fetch_got1 (resp : Nat → Except String JVal) (o : JVal)
    (h0 : ∀ x, classifyAttempt (resp 0) ≠ .gotIt x)
    (h1 : classifyAttempt (resp 1) = .gotIt o) :
    fetch_call_from_vapi resp =
      (o, [.fetched 0, .slept (sleepAfter (classifyAttempt (resp 0))), .fetched 1]) := by
  cases hc0 : classifyAttempt (resp 0) with
  | gotIt x => exact absurd hc0 (h0 x)
  | notReady => simp [fetch_call_from_vapi, fetchAttempts, hc0, h1, sleepAfter]
  | failed e => simp [fetch_call_from_vapi, fetchAttempts, hc0, h1, sleepAfter]

lemma fetch_got2 (resp : Nat → Except String JVal) (o : JVal)
    (h0 : ∀ x, classifyAttempt (resp 0) ≠ .gotIt x)
    (h1 : ∀ x, classifyAttempt (resp 1) ≠ .gotIt x)
    (h2 : classifyAttempt (resp 2) = .gotIt o) :
    fetch_call_from_vapi resp =
      (o, [.fetched 0, .slept (sleepAfter (classifyAttempt (resp 0))), .fetched 1,
           .slept (sleepAfter (classifyAttempt (resp 1))), .fetched 2]) := by
  cases hc0 : classifyAttempt (resp 0) with
  | gotIt x => exact absurd hc0 (h0 x)
  | notReady =>
      cases hc1 : classifyAttempt (resp 1) with
      | gotIt x => exact absurd hc1 (h1 x)
      | notReady => simp [fetch_call_from_vapi, fetchAttempts, hc0, hc1, h2, sleepAfter]
      | failed e => simp [fetch_call_from_vapi, fetchAttempts, hc0, hc1, h2, sleepAfter]
  | failed e =>
      cases hc1 : classifyAttempt (resp 1) with
      | gotIt x => exact absurd hc1 (h1 x)
      | notReady => simp [fetch_call_from_vapi, fetchAttempts, hc0, hc1, h2, sleepAfter]
      | failed e2 => simp [fetch_call_from_vapi, fetchAttempts, hc0, hc1, h2, sleepAfter]

lemma fetch_noSuccess (resp : Nat → Except String JVal)
    (h : ∀ i, i < 3 → ∀ x, classifyAttempt (resp i) ≠ .gotIt x) :
    fetch_call_from_vapi resp =
      (finalFetch resp,
       [.fetched 0, .slept (sleepAfter (classifyAttempt (resp 0))), .fetched 1,
        .slept (sleepAfter (classifyAttempt (resp 1))), .fetched 2,
        .slept (sleepAfter (classifyAttempt (resp 2))), .fetched 3]) := by
  have h0 := h 0 (by omega)
  have h1 := h 1 (by omega)
  have h2 := h 2 (by omega)
  cases hc0 : classifyAttempt (resp 0) with
  | gotIt x => exact absurd hc0 (h0 x)
  | notReady =>
      cases hc1 : classifyAttempt (resp 1) with
      | gotIt x => exact absurd hc1 (h1 x)
      | notReady =>
          cases hc2 : classifyAttempt (resp 2) with
          | gotIt x => exact absurd hc2 (h2 x)
          | notReady =>
              cases h3 : resp 3 <;>
                simp [fetch_call_from_vapi, fetchAttempts, finalFetch, hc0, hc1, hc2, h3,
                  sleepAfter]
          | failed e =>
              cases h3 : resp 3 <;>
                simp [fetch_call_from_vapi, fetchAttempts, finalFetch, hc0, hc1, hc2, h3,
                  sleepAfter]
      | failed e =>
          cases hc2 : classifyAttempt (resp 2) with
          | gotIt x => exact absurd hc2 (h2 x)
          | notReady =>
              cases h3 : resp 3 <;>
                simp [fetch_call_from_vapi, fetchAttempts, finalFetch, hc0, hc1, hc2, h3,
                  sleepAfter]
          | failed e2 =>
              cases h3 : resp 3 <;>
                simp [fetch_call_from_vapi, fetchAttempts, finalFetch, hc0, hc1, hc2, h3,
                  sleepAfter]
  | failed e =>
      cases hc1 : classifyAttempt (resp 1) with
      | gotIt x => exact absurd hc1 (h1 x)
      | notReady =>
          cases hc2 : classifyAttempt (resp 2) with
          | gotIt x => exact absurd hc2 (h2 x)
          | notReady =>
              cases h3 : resp 3 <;>
                simp [fetch_call_from_vapi, fetchAttempts, finalFetch, hc0, hc1, hc2, h3,
                  sleepAfter]
          | failed e2 =>
              cases h3 : resp 3 <;>
                simp [fetch_call_from_vapi, fetchAttempts, finalFetch, hc0, hc1, hc2, h3,
                  sleepAfter]
      | failed e2 =>
          cases hc2 : classifyAttempt (resp 2) with
          | gotIt x => exact absurd hc2 (h2 x)
          | notReady =>
              cases h3 : resp 3 <;>
                simp [fetch_call_from_vapi, fetchAttempts, finalFetch, hc0, hc1, hc2, h3,
                  sleepAfter]
          | failed e3 =>
              cases h3 : resp 3 <;>
                simp [fetch_call_from_vapi, fetchAttempts, finalFetch, hc0, hc1, hc2, h3,
                  sleepAfter]

lemma classify_gotIt (r : Except String JVal) (o : JVal)
    (h : classifyAttempt r = .gotIt o) : r = .ok o := by
  cases r with
  | error e => simp [classifyAttempt] at h
  | ok v =>
      cases hf : firstOutputReady v with
      | error e => simp [classifyAttempt, hf] at h
      | ok b =>
          cases b with
          | false => simp [classifyAttempt, hf] at h
          | true =>
              simp only [classifyAttempt, hf] at h
              injection h with h'
              rw [h']

/-- C9: the fetcher is bounded and shaped as specified — at most 4
fetches; an attempt (among the first three) whose first structured output
holds a non-empty `result`, all earlier attempts having not returned,
makes the fetcher return that fetched resource immediately, with a
5-time-unit sleep recorded after each not-ready attempt and a
3-time-unit sleep after each caught failure (`sleepAfter`); and when no
attempt returns, exactly one final unconditional fetch (index 3) happens
and its outcome — whatever it is, an empty result included — is returned,
never an error. -/
theorem C9_fetcher_bounded (resp : Nat → Except String JVal) :
    countFetches (fetch_call_from_vapi resp).2 ≤ 4 ∧
    (∀ o, classifyAttempt (resp 0) = .gotIt o →
      fetch_call_from_vapi resp = (o, [.fetched 0])) ∧
    (∀ o, (∀ x, classifyAttempt (resp 0) ≠ .gotIt x) →
      classifyAttempt (resp 1) = .gotIt o →
      fetch_call_from_vapi resp =
        (o, [.fetched 0, .slept (sleepAfter (classifyAttempt (resp 0))), .fetched 1])) ∧
    (∀ o, (∀ x, classifyAttempt (resp 0) ≠ .gotIt x) →
      (∀ x, classifyAttempt (resp 1) ≠ .gotIt x) →
      classifyAttempt (resp 2) = .gotIt o →
      fetch_call_from_vapi resp =
        (o, [.fetched 0, .slept (sleepAfter (classifyAttempt (resp 0))), .fetched 1,
             .slept (sleepAfter (classifyAttempt (resp 1))), .fetched 2])) ∧
    ((∀ i, i < 3 → ∀ x, classifyAttempt (resp i) ≠ .gotIt x) →
      fetch_call_from_vapi resp =
        (finalFetch resp,
         [.fetched 0, .slept (sleepAfter (classifyAttempt (resp 0))), .fetched 1,
          .slept (sleepAfter (classifyAttempt (resp 1))), .fetched 2,
          .slept (sleepAfter (classifyAttempt (resp 2))), .fetched 3])) ∧
    sleepAfter .notReady = 5 ∧ (∀ e, sleepAfter (.failed e) = 3) := by
  refine ⟨?_, fetch_got0 resp, fetch_got1 resp, fetch_got2 resp, fetch_noSuccess resp,
    rfl, fun e => rfl⟩
  by_cases h0 : ∃ x, classifyAttempt (resp 0) = .gotIt x
  · obtain ⟨x, hx⟩ := h0
    rw [fetch_got0 resp x hx]
    simp [countFetches]
  · push_neg at h0
    by_cases h1 : ∃ x, classifyAttempt (resp 1) = .gotIt x
    · obtain ⟨x, hx⟩ := h1
      rw [fetch_got1 resp x h0 hx]
      simp [countFetches]
    · push_neg at h1
      by_cases h2 : ∃ x, classifyAttempt (resp 2) = .gotIt x
      · obtain ⟨x, hx⟩ := h2
        rw [fetch_got2 resp x h0 h1 hx]
        simp [countFetches]
      · push_neg at h2
        have hno : ∀ i, i < 3 → ∀ x, classifyAttempt (resp i) ≠ .gotIt x := by
          intro i hi x
          interval_cases i
          · exact h0 x
          · exact h1 x
          · exact h2 x
        rw [fetch_noSuccess resp hno]
        simp [countFetches]

/-- Witness for C9 at a concrete input: a platform whose first response
already carries a non-empty first structured output makes the fetcher
return it after a single fetch. -/
theorem C9_fetcher_bounded_witness :
    fetch_call_from_vapi (fun _ => .ok (.jObj [("analysis",
        .jObj [("structuredOutputs",
          .jObj [("o", .jObj [("result", .jObj [("k", .jStr "v")])])])])])) =
      (.jObj [("analysis",
        .jObj [("structuredOutputs",
          .jObj [("o", .jObj [("result", .jObj [("k", .jStr "v")])])])])],
       [.fetched 0]) :=
  (C9_fetcher_bounded (fun _ => .ok (.jObj [("analysis",
      .jObj [("structuredOutputs",
        .jObj [("o", .jObj [("result", .jObj [("k", .jStr "v")])])])])]))).2.1
    (.jObj [("analysis",
      .jObj [("structuredOutputs",
        .jObj [("o", .jObj [("result", .jObj [("k", .jStr "v")])])])])]) rfl

/-- C10 counterexample: when the three attempts fail and the final fetch
parses to a JSON array, the fetcher returns that array — the caller does
*not* always receive a mapping. -/
theorem C10_nonmapping_counterexample :
    (fetch_call_from_vapi
        (fun i => if i < 3 then .error "connection reset" else .ok (.jArr [.jInt 1]))).1 =
      .jArr [.jInt 1] ∧
    isJObjB (.jArr [.jInt 1]) = false := ⟨rfl, rfl⟩

/-- C10 (amended): the fetcher never raises — every attempt exception is
caught inside the loop, and a failing final fetch returns the empty
mapping; the caller always receives some platform-parsed JSON value or
the empty mapping, which is a mapping whenever the platform's responses
are (but a non-object JSON body from the final fetch is passed through
as-is). -/
theorem C10_fetcher_never_raises (resp : Nat → Except String JVal) :
    ((∀ i, i < 3 → ∀ x, classifyAttempt (resp i) ≠ .gotIt x) →
      ∀ e, resp 3 = .error e → (fetch_call_from_vapi resp).1 = .jObj []) ∧
    ((fetch_call_from_vapi resp).1 = .jObj [] ∨
      ∃ i, i ≤ 3 ∧ resp i = .ok (fetch_call_from_vapi resp).1) := by
  constructor
  · intro hno e h3
    rw [fetch_noSuccess resp hno]
    simp [finalFetch, h3]
  · by_cases h0 : ∃ x, classifyAttempt (resp 0) = .gotIt x
    · obtain ⟨x, hx⟩ := h0
      right
      refine ⟨0, by omega, ?_⟩
      rw [fetch_got0 resp x hx]
      exact classify_gotIt (resp 0) x hx
    · push_neg at h0
      by_cases h1 : ∃ x, classifyAttempt (resp 1) = .gotIt x
      · obtain ⟨x, hx⟩ := h1
        right
        refine ⟨1, by omega, ?_⟩
        rw [fetch_got1 resp x h0 hx]
        exact classify_gotIt (resp 1) x hx
      · push_neg at h1
        by_cases h2 : ∃ x, classifyAttempt (resp 2) = .gotIt x
        · obtain ⟨x, hx⟩ := h2
          right
          refine ⟨2, by omega, ?_⟩
          rw [fetch_got2 resp x h0 h1 hx]
          exact classify_gotIt (resp 2) x hx
        · push_neg at h2
          have hno : ∀ i, i < 3 → ∀ x, classifyAttempt (resp i) ≠ .gotIt x := by
            intro i hi x
            interval_cases i
            · exact h0 x
            · exact h1 x
            · exact h2 x
          rw [fetch_noSuccess resp hno]
          cases h3 : resp 3 with
          | error e => left; simp [finalFetch, h3]
          | ok v =>
              right
              refine ⟨3, by omega, ?_⟩
              simp [finalFetch, h3]

/-- Witness for C10 at a concrete input: a platform that is down for every
request makes the fetcher hand back the empty mapping. -/
theorem C10_fetcher_never_raises_witness :
    (fetch_call_from_vapi (fun _ => .error "service unavailable")).1 = .jObj [] :=
  (C10_fetcher_never_raises (fun _ => .error "service unavailable")).1
    (fun _ _ _ hx => AttemptRes.noConfusion hx) "service unavailable" rfl

/-! ## Claim about the Webhook Endpoint (C7) -/

/-- C7: for every authenticated request (the handler body is reached):
an event whose type discriminator is not `"end-of-call-report"` yields the
"ignored" body — not an error; an end-of-call event with a missing (or
falsy) call identifier yields the explicit `"status": "error"` body
without raising; every failure of the inner pipeline is converted by the
blanket catch into a body whose status is `"error"`; and the handler is a
total function whose response status is always one of `"ignored"`,
`"error"`, `"success"`, `"partial_failure"` — no exception escapes. -/
theorem C7_webhook_endpoint (payload : Except String JVal) (env : WebhookEnv) :
    (∀ p, payload = .ok (.jObj p) →
      ∀ m, lookupJD p "message" (.jObj []) = .jObj m →
        jvalEqStr (lookupJD m "type" .jNull) "end-of-call-report" = false →
        vapi_webhook payload env = .ignored) ∧
    (∀ p m c, payload = .ok (.jObj p) →
      lookupJD p "message" (.jObj []) = .jObj m →
      jvalEqStr (lookupJD m "type" .jNull) "end-of-call-report" = true →
      lookupJD m "call" (.jObj []) = .jObj c →
      pyTruthy (lookupJD c "id" .jNull) = false →
      vapi_webhook payload env = .errorNoCallId ∧ respStatus .errorNoCallId = "error") ∧
    (∀ e, vapi_webhook_inner payload env = .error e →
      vapi_webhook payload env = .crashed e ∧ respStatus (.crashed e) = "error") ∧
    (respStatus (vapi_webhook payload env) = "ignored" ∨
     respStatus (vapi_webhook payload env) = "error" ∨
     respStatus (vapi_webhook payload env) = "success" ∨
     respStatus (vapi_webhook payload env) = "partial_failure") := by
  refine ⟨?_, ?_, ?_, ?_⟩
  · intro p hp m hm htype
    subst hp
    simp [vapi_webhook, vapi_webhook_inner, pyGet, hm, htype]
  · intro p m c hp hm htype hc hid
    subst hp
    refine ⟨?_, rfl⟩
    simp [vapi_webhook, vapi_webhook_inner, pyGet, hm, htype, hc, hid]
  · intro e h
    exact ⟨by simp [vapi_webhook, h], rfl⟩
  · cases hin : vapi_webhook_inner payload env with
    | error e => simp [vapi_webhook, hin, respStatus]
    | ok r => cases r <;> simp [vapi_webhook, hin, respStatus]

/-- Witness for C7 at a concrete input: a `status-update` event is
answered with the "ignored" body. -/
theorem C7_webhook_endpoint_witness :
    vapi_webhook (.ok (.jObj [("message", .jObj [("type", .jStr "status-update")])]))
      ⟨fun _ => .error "net down", none, .ok (), .missing, "t"⟩ = .ignored :=
  (C7_webhook_endpoint (.ok (.jObj [("message", .jObj [("type", .jStr "status-update")])]))
      ⟨fun _ => .error "net down", none, .ok (), .missing, "t"⟩).1
    [("message", .jObj [("type", .jStr "status-update")])] rfl
    [("type", .jStr "status-update")] rfl rfl

end VapiSheets
